import Mathlib

/-!
Verification of the posts HTTP resource API (`posts/api.py`).

Shallow embedding: the persistence collaborator's table is a `List Post`,
each Flask view is a function from its inputs and the current table to a
`Response` and the updated table.  The repository's `decorators.py`,
`models.py` and `database.py` are not among the sources; the parts of their
behaviour the handlers depend on are modelled from the specification and
marked as such.
-/

namespace Posts

/-- A scalar JSON value as it can appear as a field of a write payload. -/
inductive JVal where
  | str (s : String)
  | num (n : Int)
  | boolean (b : Bool)
  | null
deriving DecidableEq

/-- Python repr of a scalar value, as the schema engine embeds it in
violation messages (`32` → `32`, `"x"` → `'x'`, `True`, `None`). -/
def JVal.render : JVal → String
  | JVal.str s => "'" ++ s ++ "'"
  | JVal.num n => toString n
  | JVal.boolean true => "True"
  | JVal.boolean false => "False"
  | JVal.null => "None"

/-- A JSON object payload: association list of fields. -/
abbrev JObj := List (String × JVal)

/-- Field lookup in a payload (Python dict access / membership). -/
def lookupKey (d : JObj) (k : String) : Option JVal :=
  (d.find? (fun kv => kv.1 == k)).map (fun kv => kv.2)

/-- The Post entity: columns `id`, `title`, `body`; `as_dictionary`
serializes exactly these three fields. -/
structure Post where
  id : Nat
  title : String
  body : String
deriving DecidableEq

/-- The persistence collaborator's state: the relational table `posts`. -/
abbrev Store := List Post

/-- `session.query(models.Post).get(id)`: primary-key lookup. -/
def getPost (s : Store) (id : Nat) : Option Post :=
  s.find? (fun p => p.id == id)

/-- Modelled from the spec: `models.py` and `database.py` are not among the
sources; per §3 the persistence layer assigns the id on creation
(auto-increment; §8 gives the first created row id 1). -/
def nextId (s : Store) : Nat :=
  (s.map Post.id).foldr max 0 + 1

/-- The characters of `needle` occur contiguously inside `l`. -/
def charsContain (needle : List Char) : List Char → Bool
  | [] => needle.isEmpty
  | c :: cs => needle.isPrefixOf (c :: cs) || charsContain needle cs

/-- Modelled from the spec: the SQL LIKE-style containment behind
`Post.title.contains(...)` — case-sensitive substring match on the raw
field (§4.2). -/
def strContains (hay needle : String) : Bool :=
  charsContain needle.data hay.data

/-- Python truthiness of `request.args.get(...)`: `None` and the empty
string are falsy, so only a non-empty filter argument filters. -/
def truthy : Option String → Bool
  | none => false
  | some s => !s.isEmpty

/-- One optional LIKE filter stage of `posts_get` (api.py lines 28-31):
applied only when the query argument is truthy. -/
def applyLike (field : Post → String) (arg : Option String) (l : List Post) : List Post :=
  match arg with
  | none => l
  | some t => if t.isEmpty then l else l.filter (fun p => strContains (field p) t)

/-- `order_by(models.Post.id)`: ascending sort on the id column. -/
def orderById (l : List Post) : List Post :=
  l.mergeSort (fun a b => decide (a.id ≤ b.id))

/-- The JSON body shapes the handlers produce. -/
inductive Body where
  | posts (l : List Post)
  | post (p : Post)
  | msg (m : String)
deriving DecidableEq

/-- An HTTP-style response: status code, JSON body, optional Location
header.  Every handler response carries mimetype application/json. -/
structure Response where
  status : Nat
  body : Body
  location : Option String
deriving DecidableEq

/-- The post array carried by a 200 List response. -/
def listBody : Response → List Post
  | ⟨_, Body.posts l, _⟩ => l
  | _ => []

/-- Modelled from the spec: one property type check of the schema engine
(§4.2): a present field whose value is not a string yields the
human-readable violation message. -/
def propCheck (d : JObj) (k : String) : Option String :=
  match lookupKey d k with
  | some (JVal.str _) => none
  | some v => some (JVal.render v ++ " is not of type 'string'")
  | none => none

/-- Modelled from the spec: one required-property check of the schema
engine (§4.2). -/
def reqCheck (d : JObj) (k : String) : Option String :=
  match lookupKey d k with
  | some _ => none
  | none => some ("'" ++ k ++ "' is a required property")

/-- Modelled from the spec: `jsonschema.validate(data, post_schema)` with
the schema of api.py lines 11-17; returns the first schema-violation
description (§7): type checks on the declared properties in schema order
(`title`, `body`), then the required-property checks. -/
def validatePost (d : JObj) : Option String :=
  match propCheck d "title" with
  | some e => some e
  | none =>
    match propCheck d "body" with
    | some e => some e
    | none =>
      match reqCheck d "title" with
      | some e => some e
      | none => reqCheck d "body"

/-- `data["title"]` (and likewise `data["body"]`) after validation: the
string value of a field; a successfully validated payload always has one. -/
def strField (d : JObj) (k : String) : String :=
  match lookupKey d k with
  | some (JVal.str s) => s
  | _ => ""

/-- GET /api/posts handler body (api.py lines 21-36): optional title and
body LIKE filters, then order by id. -/
def posts_get (title_like body_like : Option String) (s : Store) : Response :=
  ⟨200, Body.posts (orderById (applyLike Post.body body_like (applyLike Post.title title_like s))), none⟩

/-- POST /api/posts handler body (api.py lines 40-58): validate, insert with
a collaborator-assigned id, respond 201 with the representation and a
Location header from `url_for("post_get", id=post.id)`, which resolves to
the Get route path. -/
def posts_post (payload : JObj) (s : Store) : Response × Store :=
  match validatePost payload with
  | some e => (⟨422, Body.msg e, none⟩, s)
  | none =>
    (⟨201, Body.post ⟨nextId s, strField payload "title", strField payload "body"⟩,
      some ("/api/posts/" ++ toString (nextId s))⟩,
     s ++ [⟨nextId s, strField payload "title", strField payload "body"⟩])

/-- GET /api/posts/(int:id) handler body (api.py lines 62-72): a pure read,
404 with the not-found message when the primary-key lookup misses. -/
def post_get (id : Nat) (s : Store) : Response × Store :=
  match getPost s id with
  | none => (⟨404, Body.msg ("Could not find post with id " ++ toString id), none⟩, s)
  | some p => (⟨200, Body.post p, none⟩, s)

/-- DELETE /api/posts/(int:id) (api.py lines 75-84).  Modelled from the
spec for the collaborator: `session.delete` of the queried row; per §4.2
deleting a non-existent id is not distinguished — the collaborator no-ops
and the handler still reports success. -/
def post_delete (id : Nat) (s : Store) : Response × Store :=
  (⟨200, Body.msg (toString id ++ " has been deleted successfully"), none⟩,
   s.filter (fun p => p.id != id))

/-- PUT /api/posts/(int:id) (api.py lines 87-113): validate first, then
branch on existence; create with the explicit path id when absent, else
mutate title and body of the row in place. -/
def post_put (id : Nat) (payload : JObj) (s : Store) : Response × Store :=
  match validatePost payload with
  | some e => (⟨422, Body.msg e, none⟩, s)
  | none =>
    match getPost s id with
    | none =>
      (⟨201, Body.msg ("New post has been added with Title: " ++ strField payload "title"), none⟩,
       s ++ [⟨id, strField payload "title", strField payload "body"⟩])
    | some _ =>
      (⟨200, Body.msg "Post has been updated", none⟩,
       s.map (fun p => if p.id == id then ⟨p.id, strField payload "title", strField payload "body"⟩ else p))

/-- Modelled from the spec: `decorators.accept(mediatype)` (§4.1,
`decorators.py` is not among the sources) — short-circuit 406 with the
message unless the declared Accept mediatype matches exactly or is the
wildcard. -/
def acceptGate (mediatype : String) (acceptHeader : String) : Option Response :=
  if acceptHeader == mediatype || acceptHeader == "*/*" then none
  else some ⟨406, Body.msg ("Request must accept " ++ mediatype ++ " data"), none⟩

/-- Modelled from the spec: `decorators.require(mediatype)` (§4.1) —
short-circuit 415 with the message unless the Content-Type matches
exactly. -/
def requireGate (mediatype : String) (contentType : String) : Option Response :=
  if contentType == mediatype then none
  else some ⟨415, Body.msg ("Request must contain " ++ mediatype ++ " data"), none⟩

/-- The view Flask dispatches for GET /api/posts: `app.route` stands above
`decorators.accept` (api.py lines 19-20), so the route registers the
gated handler — the Accept check runs before the handler. -/
def route_posts_get (acceptHeader : String) (title_like body_like : Option String) (s : Store) :
    Response × Store :=
  match acceptGate "application/json" acceptHeader with
  | some r => (r, s)
  | none => (posts_get title_like body_like s, s)

/-- The view Flask dispatches for POST /api/posts: `app.route` stands above
`decorators.require` (api.py lines 38-39), so the Content-Type check runs
before the handler. -/
def route_posts_post (contentType : String) (payload : JObj) (s : Store) : Response × Store :=
  match requireGate "application/json" contentType with
  | some r => (r, s)
  | none => posts_post payload s

/-- The view Flask dispatches for GET /api/posts/(int:id).  In the source
(api.py lines 60-61) `decorators.accept` is written ABOVE `app.route`:
decorators apply bottom-up, so `app.route` receives and registers the
unwrapped handler, and only the module-level name is rebound to the gated
wrapper.  The Accept gate therefore never runs for dispatched requests on
this route. -/
def route_post_get (acceptHeader : String) (id : Nat) (s : Store) : Response × Store :=
  post_get id s

/-- The view Flask dispatches for DELETE /api/posts/(int:id): no gate. -/
def route_post_delete (id : Nat) (s : Store) : Response × Store :=
  post_delete id s

/-- The view Flask dispatches for PUT /api/posts/(int:id): no gate. -/
def route_post_put (id : Nat) (payload : JObj) (s : Store) : Response × Store :=
  post_put id payload s

/-! Shared lemmas about the embedding. -/

/-- A payload whose title and body fields are strings validates. -/
theorem validatePost_eq_none_of_fields (d : JObj) (t b : String)
    (ht : lookupKey d "title" = some (JVal.str t))
    (hb : lookupKey d "body" = some (JVal.str b)) :
    validatePost d = none := by
  simp [validatePost, propCheck, reqCheck, ht, hb]

/-- Reading a string field after a successful lookup. -/
theorem strField_eq (d : JObj) (k t : String) (h : lookupKey d k = some (JVal.str t)) :
    strField d k = t := by
  simp [strField, h]

/-- Every row id is bounded by the running maximum over the table. -/
theorem id_le_fold_max (p : Post) (s : Store) (hp : p ∈ s) :
    p.id ≤ (s.map Post.id).foldr max 0 := by
  induction s with
  | nil => cases hp
  | cons q rest ih =>
    simp only [List.map_cons, List.foldr_cons]
    rcases List.mem_cons.mp hp with h | h
    · exact h ▸ Nat.le_max_left _ _
    · exact Nat.le_trans (ih h) (Nat.le_max_right _ _)

/-- The assigned id is fresh: no persisted row carries it. -/
theorem nextId_fresh (s : Store) (p : Post) (hp : p ∈ s) : p.id ≠ nextId s := by
  have h := id_le_fold_max p s hp
  unfold nextId
  omega

/-- Primary-key lookup lands on a freshly appended row. -/
theorem getPost_append_fresh (s : Store) (q : Post) (hq : ∀ p ∈ s, p.id ≠ q.id) :
    getPost (s ++ [q]) q.id = some q := by
  unfold getPost
  induction s with
  | nil => simp
  | cons r rest ih =>
    have hr : (r.id == q.id) = false := by
      simpa using hq r (by simp)
    simp only [List.cons_append, List.find?_cons, hr, cond_false]
    exact ih (fun p hp => hq p (by simp [hp]))

/-- A falsy filter argument leaves the query unfiltered. -/
theorem applyLike_not_truthy (field : Post → String) (arg : Option String)
    (h : truthy arg = false) (l : List Post) : applyLike field arg l = l := by
  cases arg with
  | none => rfl
  | some t =>
    simp only [truthy, Bool.not_eq_false'] at h
    simp [applyLike, h]

/-- A non-empty filter argument filters by containment on the field. -/
theorem applyLike_truthy (field : Post → String) (t : String) (ht : t ≠ "") (l : List Post) :
    applyLike field (some t) l = l.filter (fun p => strContains (field p) t) := by
  have h : t.isEmpty = false := by
    cases ht' : t.isEmpty
    · rfl
    · exact absurd ((String.isEmpty_iff t).mp ht') ht
  simp [applyLike, h]

/-- Sorting does not change membership. -/
theorem orderById_mem (p : Post) (l : List Post) : p ∈ orderById l ↔ p ∈ l := by
  unfold orderById
  exact List.mem_mergeSort

/-- Sorting produces a permutation of the table. -/
theorem orderById_perm (l : List Post) : List.Perm (orderById l) l := by
  unfold orderById
  exact List.mergeSort_perm l _

/-- The sorted listing is ascending in id. -/
theorem orderById_sorted (l : List Post) :
    (orderById l).Pairwise (fun a b : Post => a.id ≤ b.id) := by
  have h : (orderById l).Pairwise (fun a b : Post => decide (a.id ≤ b.id) = true) := by
    unfold orderById
    exact List.sorted_mergeSort
      (fun a b c hab hbc => by
        simp only [decide_eq_true_eq] at *
        omega)
      (fun a b => by
        simp only [Bool.or_eq_true, decide_eq_true_eq]
        omega)
      l
  exact h.imp (fun hab => by simpa using hab)

/-! Claim theorems. -/

/-- Claim C1: for every valid JSON payload with string title and string body,
POST /posts (with JSON content type) returns 201 with the created
representation echoing title, body and the assigned id, and a Location
header for the Get endpoint of that id; the post is persisted, found by a
subsequent Get on the new id, and appears in a subsequent List. -/
theorem claim1_create_persists (payload : JObj) (t b : String) (s : Store)
    (ht : lookupKey payload "title" = some (JVal.str t))
    (hb : lookupKey payload "body" = some (JVal.str b)) :
    route_posts_post "application/json" payload s =
      (⟨201, Body.post ⟨nextId s, t, b⟩, some ("/api/posts/" ++ toString (nextId s))⟩,
       s ++ [⟨nextId s, t, b⟩])
    ∧ getPost (s ++ [⟨nextId s, t, b⟩]) (nextId s) = some ⟨nextId s, t, b⟩
    ∧ posts_get none none (s ++ [⟨nextId s, t, b⟩]) =
        ⟨200, Body.posts (orderById (s ++ [⟨nextId s, t, b⟩])), none⟩
    ∧ (⟨nextId s, t, b⟩ : Post) ∈ orderById (s ++ [⟨nextId s, t, b⟩]) := by
  have hv := validatePost_eq_none_of_fields payload t b ht hb
  have hte := strField_eq payload "title" t ht
  have hbe := strField_eq payload "body" b hb
  refine ⟨?_, ?_, rfl, ?_⟩
  · simp [route_posts_post, requireGate, posts_post, hv, hte, hbe]
  · exact getPost_append_fresh s _ (fun p hp => nextId_fresh s p hp)
  · rw [orderById_mem]
    simp

/-- The concrete create payload of §8 of the spec. -/
def examplePayload : JObj :=
  [("title", JVal.str "Example post"), ("body", JVal.str "Testing...")]

/-- The post that payload creates on the empty store. -/
def examplePost : Post :=
  ⟨1, "Example post", "Testing..."⟩

/-- Witness for C1 at the payload and store of §8 of the spec. -/
theorem claim1_create_persists_witness :
    lookupKey examplePayload "title" = some (JVal.str "Example post")
    ∧ lookupKey examplePayload "body" = some (JVal.str "Testing...")
    ∧ (route_posts_post "application/json" examplePayload [] =
        (⟨201, Body.post examplePost, some "/api/posts/1"⟩, [examplePost])
      ∧ getPost [examplePost] 1 = some examplePost
      ∧ posts_get none none [examplePost] = ⟨200, Body.posts (orderById [examplePost]), none⟩
      ∧ examplePost ∈ orderById [examplePost]) :=
  ⟨rfl, rfl, claim1_create_persists examplePayload "Example post" "Testing..." [] rfl rfl⟩


/-- Claim C2: PUT /posts/{id} with a valid payload creates a post with the
explicit path id (201) when no post with that id exists, and otherwise
answers 200 and rewrites only the title and body of the matching row in
place; validation runs before the existence branch, so an invalid payload
yields 422 with the store unchanged whether or not the id exists. -/
theorem claim2_put_update_or_create (id : Nat) (s : Store) :
    (∀ (payload : JObj) (t b : String),
      lookupKey payload "title" = some (JVal.str t) →
      lookupKey payload "body" = some (JVal.str b) →
      (getPost s id = none →
        route_post_put id payload s =
          (⟨201, Body.msg ("New post has been added with Title: " ++ t), none⟩,
           s ++ [⟨id, t, b⟩]))
      ∧ ∀ p, getPost s id = some p →
          route_post_put id payload s =
            (⟨200, Body.msg "Post has been updated", none⟩,
             s.map (fun q => if q.id == id then ⟨q.id, t, b⟩ else q)))
    ∧ (∀ (payload : JObj) (e : String), validatePost payload = some e →
        route_post_put id payload s = (⟨422, Body.msg e, none⟩, s)) := by
  constructor
  · intro payload t b ht hb
    have hv := validatePost_eq_none_of_fields payload t b ht hb
    have hte := strField_eq payload "title" t ht
    have hbe := strField_eq payload "body" b hb
    constructor
    · intro hnone
      simp [route_post_put, post_put, hv, hnone, hte, hbe]
    · intro p hp
      simp [route_post_put, post_put, hv, hp, hte, hbe]
  · intro payload e he
    simp [route_post_put, post_put, he]

/-- Witness for C2: create on a missing id, update on a present one, and a
422 on an invalid payload with the id present. -/
theorem claim2_put_update_or_create_witness :
    (getPost [] 1 = none
      ∧ route_post_put 1 [("title", JVal.str "T"), ("body", JVal.str "B")] [] =
          (⟨201, Body.msg "New post has been added with Title: T", none⟩, [⟨1, "T", "B"⟩]))
    ∧ (getPost [⟨1, "T", "B"⟩] 1 = some ⟨1, "T", "B"⟩
      ∧ route_post_put 1 [("title", JVal.str "U"), ("body", JVal.str "V")] [⟨1, "T", "B"⟩] =
          (⟨200, Body.msg "Post has been updated", none⟩, [⟨1, "U", "V"⟩]))
    ∧ (validatePost [("title", JVal.str "U")] = some "'body' is a required property"
      ∧ route_post_put 1 [("title", JVal.str "U")] [⟨1, "T", "B"⟩] =
          (⟨422, Body.msg "'body' is a required property", none⟩, [⟨1, "T", "B"⟩])) :=
  ⟨⟨rfl, ((claim2_put_update_or_create 1 []).1
      [("title", JVal.str "T"), ("body", JVal.str "B")] "T" "B" rfl rfl).1 rfl⟩,
   ⟨rfl, ((claim2_put_update_or_create 1 [⟨1, "T", "B"⟩]).1
      [("title", JVal.str "U"), ("body", JVal.str "V")] "U" "V" rfl rfl).2 _ rfl⟩,
   ⟨rfl, (claim2_put_update_or_create 1 [⟨1, "T", "B"⟩]).2
      [("title", JVal.str "U")] _ rfl⟩⟩

/-- Claim C3: GET /posts/{id} answers 200 with the post when the id exists,
404 with exactly the message "Could not find post with id {id}" when it does
not, and never changes the store. -/
theorem claim3_get_by_id (id : Nat) (s : Store) :
    (∀ p, getPost s id = some p → post_get id s = (⟨200, Body.post p, none⟩, s))
    ∧ (getPost s id = none →
        post_get id s =
          (⟨404, Body.msg ("Could not find post with id " ++ toString id), none⟩, s))
    ∧ (post_get id s).2 = s := by
  refine ⟨fun p hp => by simp [post_get, hp], fun h => by simp [post_get, h], ?_⟩
  unfold post_get
  cases h : getPost s id <;> rfl

/-- Witness for C3: the §8 miss on the empty store and a hit. -/
theorem claim3_get_by_id_witness :
    (getPost [] 1 = none
      ∧ post_get 1 [] = (⟨404, Body.msg "Could not find post with id 1", none⟩, []))
    ∧ (getPost [⟨1, "t", "b"⟩] 1 = some ⟨1, "t", "b"⟩
      ∧ post_get 1 [⟨1, "t", "b"⟩] = (⟨200, Body.post ⟨1, "t", "b"⟩, none⟩, [⟨1, "t", "b"⟩])) :=
  ⟨⟨rfl, (claim3_get_by_id 1 []).2.1 rfl⟩,
   ⟨rfl, (claim3_get_by_id 1 [⟨1, "t", "b"⟩]).1 _ rfl⟩⟩

/-- Claim C4: GET /posts with no filters, or with empty-string filters,
answers 200 with all persisted posts ordered by ascending id, and the empty
array on the empty store. -/
theorem claim4_list_unfiltered (tl bl : Option String) (s : Store)
    (htl : truthy tl = false) (hbl : truthy bl = false) :
    posts_get tl bl s = ⟨200, Body.posts (orderById s), none⟩
    ∧ List.Perm (orderById s) s
    ∧ (∀ p, p ∈ orderById s ↔ p ∈ s)
    ∧ (orderById s).Pairwise (fun a b : Post => a.id ≤ b.id)
    ∧ posts_get tl bl ([] : Store) = ⟨200, Body.posts [], none⟩ := by
  refine ⟨?_, orderById_perm s, fun p => orderById_mem p s, orderById_sorted s, ?_⟩
  · unfold posts_get
    rw [applyLike_not_truthy _ _ htl, applyLike_not_truthy _ _ hbl]
  · unfold posts_get
    rw [applyLike_not_truthy _ _ htl, applyLike_not_truthy _ _ hbl]
    simp [orderById]

/-- Witness for C4: no title filter and an empty-string body filter on a
two-row store given out of id order. -/
theorem claim4_list_unfiltered_witness :
    truthy none = false
    ∧ truthy (some "") = false
    ∧ (posts_get none (some "") [⟨2, "x", "y"⟩, ⟨1, "a", "b"⟩] =
        ⟨200, Body.posts (orderById [⟨2, "x", "y"⟩, ⟨1, "a", "b"⟩]), none⟩
      ∧ List.Perm (orderById [⟨2, "x", "y"⟩, ⟨1, "a", "b"⟩]) [⟨2, "x", "y"⟩, ⟨1, "a", "b"⟩]
      ∧ (∀ p, p ∈ orderById [⟨2, "x", "y"⟩, ⟨1, "a", "b"⟩] ↔ p ∈ [⟨2, "x", "y"⟩, ⟨1, "a", "b"⟩])
      ∧ (orderById [⟨2, "x", "y"⟩, ⟨1, "a", "b"⟩]).Pairwise (fun a b : Post => a.id ≤ b.id)
      ∧ posts_get none (some "") ([] : Store) = ⟨200, Body.posts [], none⟩) :=
  ⟨rfl, rfl, claim4_list_unfiltered none (some "") [⟨2, "x", "y"⟩, ⟨1, "a", "b"⟩] rfl rfl⟩

/-- Claim C5: with a non-empty title_like filter the List operation returns
exactly the posts whose title contains the substring (case-sensitively),
likewise body_like on body, both filters return the intersection, and the
result stays ordered by ascending id. -/
theorem claim5_list_filtered (t b : String) (s : Store) (ht : t ≠ "") (hb : b ≠ "") :
    (∀ p, p ∈ listBody (posts_get (some t) none s) ↔ p ∈ s ∧ strContains p.title t = true)
    ∧ (∀ p, p ∈ listBody (posts_get none (some b) s) ↔ p ∈ s ∧ strContains p.body b = true)
    ∧ (∀ p, p ∈ listBody (posts_get (some t) (some b) s) ↔
        p ∈ listBody (posts_get (some t) none s) ∧ p ∈ listBody (posts_get none (some b) s))
    ∧ (listBody (posts_get (some t) (some b) s)).Pairwise (fun a c : Post => a.id ≤ c.id) := by
  have e1 : listBody (posts_get (some t) none s)
      = orderById (s.filter (fun p => strContains p.title t)) := by
    simp only [posts_get, applyLike_not_truthy Post.body none rfl,
      applyLike_truthy Post.title t ht, listBody]
  have e2 : listBody (posts_get none (some b) s)
      = orderById (s.filter (fun p => strContains p.body b)) := by
    simp only [posts_get, applyLike_not_truthy Post.title none rfl,
      applyLike_truthy Post.body b hb, listBody]
  have e3 : listBody (posts_get (some t) (some b) s)
      = orderById ((s.filter (fun p => strContains p.title t)).filter
          (fun p => strContains p.body b)) := by
    simp only [posts_get, applyLike_truthy Post.title t ht,
      applyLike_truthy Post.body b hb, listBody]
  refine ⟨?_, ?_, ?_, ?_⟩
  · intro p
    rw [e1, orderById_mem]
    simp [List.mem_filter]
  · intro p
    rw [e2, orderById_mem]
    simp [List.mem_filter]
  · intro p
    rw [e1, e2, e3, orderById_mem, orderById_mem, orderById_mem]
    simp only [List.mem_filter]
    tauto
  · rw [e3]
    exact orderById_sorted _

/-- The three-row store the repository tests build for the filter cases. -/
def filterStore : Store :=
  [⟨1, "Example Post A", "Just the body"⟩,
   ⟨2, "Example Post B", "Just another body"⟩,
   ⟨3, "Example whistles C", "Post with whiskers"⟩]

/-- Witness for C5 on the test store with the combined filters of §8. -/
theorem claim5_list_filtered_witness :
    ("Post" ≠ "" ∧ "body" ≠ "")
    ∧ ((∀ p, p ∈ listBody (posts_get (some "Post") none filterStore) ↔
          p ∈ filterStore ∧ strContains p.title "Post" = true)
      ∧ (∀ p, p ∈ listBody (posts_get none (some "body") filterStore) ↔
          p ∈ filterStore ∧ strContains p.body "body" = true)
      ∧ (∀ p, p ∈ listBody (posts_get (some "Post") (some "body") filterStore) ↔
          p ∈ listBody (posts_get (some "Post") none filterStore)
            ∧ p ∈ listBody (posts_get none (some "body") filterStore))
      ∧ (listBody (posts_get (some "Post") (some "body") filterStore)).Pairwise
          (fun a c : Post => a.id ≤ c.id)) :=
  ⟨⟨by decide, by decide⟩,
   claim5_list_filtered "Post" "body" filterStore (by decide) (by decide)⟩

/-- Claim C6: a write payload that fails the schema makes both write
operations answer 422 with the first schema-violation description verbatim
and leave the store unchanged; the two example payloads of §8 produce
exactly the documented messages. -/
theorem claim6_write_validation (payload : JObj) (e : String) (s : Store)
    (h : validatePost payload = some e) :
    posts_post payload s = (⟨422, Body.msg e, none⟩, s)
    ∧ (∀ id, post_put id payload s = (⟨422, Body.msg e, none⟩, s))
    ∧ validatePost [("title", JVal.str "x"), ("body", JVal.num 32)]
        = some "32 is not of type 'string'"
    ∧ validatePost [("title", JVal.str "x")] = some "'body' is a required property" :=
  ⟨by simp [posts_post, h], fun id => by simp [post_put, h], by rfl, by rfl⟩

/-- Witness for C6 at the missing-body payload of §8. -/
theorem claim6_write_validation_witness :
    validatePost [("title", JVal.str "x")] = some "'body' is a required property"
    ∧ (posts_post [("title", JVal.str "x")] [] =
        (⟨422, Body.msg "'body' is a required property", none⟩, [])
      ∧ (∀ id, post_put id [("title", JVal.str "x")] [] =
          (⟨422, Body.msg "'body' is a required property", none⟩, []))
      ∧ validatePost [("title", JVal.str "x"), ("body", JVal.num 32)]
          = some "32 is not of type 'string'"
      ∧ validatePost [("title", JVal.str "x")] = some "'body' is a required property") :=
  ⟨rfl, claim6_write_validation [("title", JVal.str "x")]
    "'body' is a required property" [] rfl⟩

/-- Claim C7 (code bug): the Accept gate does short-circuit GET /posts with
406 and the documented message, independently of the store; but on
GET /posts/{id} the accept decorator is written above app.route (api.py
lines 60-61), so the registered view is the ungated handler: with Accept
application/xml on the empty store the dispatched view reaches the handler
and the data layer and answers 404, not 406. -/
theorem claim7_accept_gate_bug :
    (∀ (tl bl : Option String) (s : Store),
      route_posts_get "application/xml" tl bl s =
        (⟨406, Body.msg "Request must accept application/json data", none⟩, s))
    ∧ route_post_get "application/xml" 1 [] =
        (⟨404, Body.msg "Could not find post with id 1", none⟩, []) :=
  ⟨fun tl bl s => rfl, rfl⟩

/-- Claim C8: a POST /posts request whose Content-Type is not exactly
application/json is short-circuited by the require gate with 415 and the
documented message, with the store untouched and the handler never run. -/
theorem claim8_post_requires_json (ct : String) (payload : JObj) (s : Store)
    (h : ct ≠ "application/json") :
    route_posts_post ct payload s =
      (⟨415, Body.msg "Request must contain application/json data", none⟩, s) := by
  have hb : (ct == "application/json") = false := beq_eq_false_iff_ne.mpr h
  simp [route_posts_post, requireGate, hb]

/-- Witness for C8 at the XML content type of §8. -/
theorem claim8_post_requires_json_witness :
    ("application/xml" ≠ "application/json")
    ∧ route_posts_post "application/xml" [("title", JVal.str "x")] [] =
        (⟨415, Body.msg "Request must contain application/json data", none⟩, []) :=
  ⟨by decide, claim8_post_requires_json "application/xml" [("title", JVal.str "x")] []
    (by decide)⟩

/-- Claim C9: DELETE /posts/{id} answers 200 with exactly the message
"{id} has been deleted successfully" for every id and store, and in
particular on the empty store, where no post with the id exists — the
handler does not distinguish that case and still reports success. -/
theorem claim9_delete_reports_success (id : Nat) (s : Store) :
    (post_delete id s).1 =
      ⟨200, Body.msg (toString id ++ " has been deleted successfully"), none⟩
    ∧ post_delete 7 [] =
        (⟨200, Body.msg "7 has been deleted successfully", none⟩, []) :=
  ⟨rfl, rfl⟩

/-- Claim C10: the schema constrains no extra properties: a payload with
string title and body plus any further fields validates, and both write
operations store a post made of the id, title and body only — the extra
fields are dropped. -/
theorem claim10_extra_fields_ignored (payload : JObj) (t b : String) (s : Store) (id : Nat)
    (ht : lookupKey payload "title" = some (JVal.str t))
    (hb : lookupKey payload "body" = some (JVal.str b)) :
    validatePost payload = none
    ∧ posts_post payload s =
        (⟨201, Body.post ⟨nextId s, t, b⟩, some ("/api/posts/" ++ toString (nextId s))⟩,
         s ++ [⟨nextId s, t, b⟩])
    ∧ (getPost s id = none →
        post_put id payload s =
          (⟨201, Body.msg ("New post has been added with Title: " ++ t), none⟩,
           s ++ [⟨id, t, b⟩])) := by
  have hv := validatePost_eq_none_of_fields payload t b ht hb
  have hte := strField_eq payload "title" t ht
  have hbe := strField_eq payload "body" b hb
  exact ⟨hv, by simp [posts_post, hv, hte, hbe],
    fun hn => by simp [post_put, hv, hn, hte, hbe]⟩

/-- A valid payload carrying two extra fields beside title and body. -/
def extraPayload : JObj :=
  [("title", JVal.str "x"), ("body", JVal.str "y"),
   ("extra", JVal.num 7), ("flag", JVal.boolean true)]

/-- Witness for C10 at a payload with two extra fields. -/
theorem claim10_extra_fields_ignored_witness :
    lookupKey extraPayload "title" = some (JVal.str "x")
    ∧ lookupKey extraPayload "body" = some (JVal.str "y")
    ∧ (validatePost extraPayload = none
      ∧ posts_post extraPayload [] =
          (⟨201, Body.post ⟨1, "x", "y"⟩, some "/api/posts/1"⟩, [⟨1, "x", "y"⟩])
      ∧ (getPost [] 5 = none →
          post_put 5 extraPayload [] =
            (⟨201, Body.msg "New post has been added with Title: x", none⟩,
             [⟨5, "x", "y"⟩]))) :=
  ⟨rfl, rfl, claim10_extra_fields_ignored extraPayload "x" "y" [] 5 rfl rfl⟩

end Posts
